import Mathlib

/-!
Shallow embedding of the authentication-state synchronization logic of
`src/contexts/AuthContext.tsx` (the `AuthProvider` component and the
`useAuth` hook), together with the browser-boundary effects touched by
`signOut`.  Definitions are translated directly from the source; the
event-driven pieces (the `onAuthStateChange` subscription handler, the
initial session fetch, the facade operations) become explicit state
transformers, and the React effect lifecycle becomes a small step model.
-/

namespace AuthSpec

/-- JavaScript-style substring test on character lists: does the second
list start with the first?  Used to embed `String.prototype.includes`. -/
def matchesAt : List Char → List Char → Bool
  | [], _ => true
  | _ :: _, [] => false
  | a :: as, b :: bs => a == b && matchesAt as bs

/-- Does the list contain `pat` as a contiguous run? -/
def hasChunk (pat : List Char) : List Char → Bool
  | [] => matchesAt pat []
  | h :: t => matchesAt pat (h :: t) || hasChunk pat t

/-- Embedding of JavaScript `hay.includes(pat)` for strings. -/
def strIncludes (hay pat : String) : Bool :=
  hasChunk pat.data hay.data

/-- The user record embedded in a remote session
(`session.user`): `id`, optional `email`, and the
`user_metadata.username` field, which may be absent. -/
structure SessionUser where
  id : String
  email : Option String
  username : Option String
deriving DecidableEq, Repr

/-- A remote session as consumed by this repository: an opaque token
bundle with an embedded user record.  (In the remote client's types the
`user` field of a session is always present.) -/
structure Session where
  user : SessionUser
deriving DecidableEq, Repr

/-- The local `User` projection
(`{id: string, email: string, username?: string}`). -/
structure User where
  id : String
  email : String
  username : Option String
deriving DecidableEq, Repr

/-- `setUser({id: session.user.id, email: session.user.email || '',
username: session.user.user_metadata?.username})` — the derivation of the
local `User` from a session's user record (AuthContext.tsx lines 33-37
and 61-65). -/
def deriveUser (su : SessionUser) : User :=
  { id := su.id, email := su.email.getD "", username := su.username }

/-- The provider's local state: the `user` and `loading` `useState` pair. -/
structure AuthState where
  user : Option User
  loading : Bool
deriving DecidableEq, Repr

/-- State at mount: `useState<User | null>(null)` and `useState(true)`. -/
def initialState : AuthState := { user := none, loading := true }

/-- Outcome of the fire-and-forget `supabase.from('users').upsert(...)`
call inside the subscription handler: it either resolves or rejects. -/
inductive UpsertOutcome
  | ok
  | fail
deriving DecidableEq, Repr

/-- What one invocation of the subscription handler produces: the updated
local state, how many upsert attempts were made, and whether an exception
escaped the handler. -/
structure HandlerResult where
  state : AuthState
  upsertAttempts : Nat
  threw : Bool
deriving DecidableEq, Repr

/-- The `onAuthStateChange` subscription handler (AuthContext.tsx lines
54-86): on `SIGNED_OUT` or a null session, `setUser(null)`; otherwise
`setUser(derived)` followed by a `try`/`catch`-guarded upsert whose
failure is only logged; finally `if (loading) setLoading(false)`. -/
def handleAuthChange (event : String) (session : Option Session)
    (upsert : UpsertOutcome) (s : AuthState) : HandlerResult :=
  if event == "SIGNED_OUT" || session.isNone then
    { state := { user := none, loading := if s.loading then false else s.loading },
      upsertAttempts := 0, threw := false }
  else
    match session with
    | some sess =>
        -- the upsert is attempted once; `catch` swallows its failure,
        -- so neither outcome changes the state or escapes the handler
        match upsert with
        | .ok =>
            { state := { user := some (deriveUser sess.user),
                         loading := if s.loading then false else s.loading },
              upsertAttempts := 1, threw := false }
        | .fail =>
            { state := { user := some (deriveUser sess.user),
                         loading := if s.loading then false else s.loading },
              upsertAttempts := 1, threw := false }
    | none =>
        -- unreachable: `session.isNone` was ruled out above
        { state := { user := s.user, loading := if s.loading then false else s.loading },
          upsertAttempts := 0, threw := false }

/-- One change notification as delivered to the handler: the event name,
the session payload, and the outcome its upsert attempt would have. -/
structure Notification where
  event : String
  session : Option Session
  upsert : UpsertOutcome
deriving DecidableEq, Repr

/-- Deliver a sequence of change notifications to the handler, in order
(the stream delivers events serially; each handler invocation's state
writes land before the next notification is processed). -/
def runNotifications (s : AuthState) (ns : List Notification) : AuthState :=
  ns.foldl (fun st n => (handleAuthChange n.event n.session n.upsert st).state) s

/-- Resolution of the initial `supabase.auth.getSession()` call in
`initializeAuth`: it resolves with a (possibly null) session and a
possibly non-null error, or the awaited promise rejects. -/
inductive FetchOutcome
  | ok (session : Option Session)
  | err (message : String)
  | thrown (message : String)
deriving DecidableEq, Repr

/-- Resolution of the validating `supabase.auth.getUser()` call made when
the initial session has a user. -/
inductive GetUserOutcome
  | ok
  | err (message : String)
deriving DecidableEq, Repr

/-- `initializeAuth` (AuthContext.tsx lines 13-48): fetch the session;
a returned error or a thrown exception is logged and treated as
signed-out; a session whose user fails the `getUser` validation is also
treated as signed-out; `finally` clears loading.  The returned `Bool`
records whether an exception escaped to the caller (it never does: every
path is covered by the `catch`). -/
def initializeAuth (fetch : FetchOutcome) (gu : GetUserOutcome) :
    AuthState × Bool :=
  match fetch with
  | .err _ => ({ user := none, loading := false }, false)
  | .ok none => ({ user := none, loading := false }, false)
  | .ok (some sess) =>
      match gu with
      | .err _ => ({ user := none, loading := false }, false)
      | .ok => ({ user := some (deriveUser sess.user), loading := false }, false)
  | .thrown _ => ({ user := none, loading := false }, false)

/-- Outcome of an awaited remote credential call: it resolves with data,
resolves with a non-null `error` object carrying a message, or the
awaited promise rejects with an exception carrying a message. -/
inductive RemoteOutcome (α : Type)
  | ok (data : α)
  | err (message : String)
  | exn (message : String)
deriving DecidableEq, Repr

/-- What a facade operation delivers to its caller: the raw remote data,
or a rejection carrying a message. -/
inductive OpResult (α : Type)
  | ok (data : α)
  | thrown (message : String)
deriving DecidableEq, Repr

/-- A facade operation's observable effect: the updated provider state
and the value or rejection delivered to the caller. -/
structure OpRun (α : Type) where
  state : AuthState
  result : OpResult α
deriving DecidableEq, Repr

/-- The classified message thrown by `signIn` for a remote error message
containing `Invalid login credentials`. -/
def invalidCredentialsMessage : String :=
  "Invalid email or password. Please check your credentials and try again."

/-- The message classification of `signIn` (AuthContext.tsx lines
143-156): substring matches in order, then
`error.message || 'Sign in failed. Please try again.'`. -/
def signInMessage (msg : String) : String :=
  if strIncludes msg "Invalid login credentials" then
    invalidCredentialsMessage
  else if strIncludes msg "Email not confirmed" then
    "Please check your email and click the verification link before signing in."
  else if strIncludes msg "Too many requests" then
    "Too many login attempts. Please wait a moment and try again."
  else if msg == "" then "Sign in failed. Please try again."
  else msg

/-- The classified message thrown by `signUp` for a remote error message
containing `already registered`. -/
def alreadyRegisteredMessage : String :=
  "An account with this email already exists. Please sign in instead."

/-- The message classification of `signUp` (AuthContext.tsx lines
108-121): substring matches in order, then
`error.message || 'Account creation failed. Please try again.'`. -/
def signUpMessage (msg : String) : String :=
  if strIncludes msg "already registered" then
    alreadyRegisteredMessage
  else if strIncludes msg "Invalid email" then
    "Please enter a valid email address."
  else if strIncludes msg "Password" then
    "Password must be at least 6 characters long."
  else if msg == "" then "Account creation failed. Please try again."
  else msg

/-- `signIn` (AuthContext.tsx lines 134-165): `setLoading(true)`, await
the remote call, classify a returned error into a thrown message,
rethrow a caught exception unchanged, return the raw data on success;
`finally` `setLoading(false)`.  `setUser` is never called. -/
def signIn {α : Type} (remote : RemoteOutcome α) (s : AuthState) : OpRun α :=
  match remote with
  | .ok d => { state := { s with loading := false }, result := .ok d }
  | .err m => { state := { s with loading := false }, result := .thrown (signInMessage m) }
  | .exn m => { state := { s with loading := false }, result := .thrown m }

/-- `signUp` (AuthContext.tsx lines 93-131): same shape as `signIn` with
its own classification; on success returns the raw data without touching
`user` (email verification may still be pending). -/
def signUp {α : Type} (remote : RemoteOutcome α) (s : AuthState) : OpRun α :=
  match remote with
  | .ok d => { state := { s with loading := false }, result := .ok d }
  | .err m => { state := { s with loading := false }, result := .thrown (signUpMessage m) }
  | .exn m => { state := { s with loading := false }, result := .thrown m }

/-- The browser-boundary state touched by `signOut`: the two persisted
key/value stores, the cookie set, and the navigation target of the last
`window.location.replace` call (which replaces history). -/
structure BrowserState where
  localStorage : List (String × String)
  sessionStorage : List (String × String)
  cookies : List String
  redirect : Option String
  historyReplaced : Bool
deriving DecidableEq, Repr

/-- `localStorage.clear(); sessionStorage.clear()`. -/
def clearStores (b : BrowserState) : BrowserState :=
  { b with localStorage := [], sessionStorage := [] }

/-- The cookie loop of `signOut` (AuthContext.tsx lines 177-179): every
cookie is rewritten with an expiry in the past, leaving the cookie set
empty. -/
def expireAllCookies (b : BrowserState) : BrowserState :=
  { b with cookies := [] }

/-- `window.location.replace(target)`: a hard, history-replacing
navigation. -/
def locationReplace (target : String) (b : BrowserState) : BrowserState :=
  { b with redirect := some target, historyReplaced := true }

/-- Outcome of the awaited `supabase.auth.signOut()` remote call. -/
inductive SignOutRemote
  | ok
  | err (message : String)
  | exn (message : String)
deriving DecidableEq, Repr

/-- What `signOut` leaves behind: browser state, provider state, and
whether the call rejected towards its caller. -/
structure SignOutResult where
  browser : BrowserState
  state : AuthState
  threw : Bool
deriving DecidableEq, Repr

/-- `signOut` (AuthContext.tsx lines 168-207): `setLoading(true)`;
clear both stores; expire every cookie; await the remote sign-out (a
returned error is only logged); `setUser(null)`; `location.replace('/')`.
The `catch` repeats `setUser(null)`, the store clears and the redirect;
nothing is rethrown.  `finally` clears loading. -/
def signOut (remote : SignOutRemote) (_s0 : AuthState) (b0 : BrowserState) :
    SignOutResult :=
  let b2 := expireAllCookies (clearStores b0)
  match remote with
  | .exn _ =>
      -- catch branch: setUser(null); clear stores again; replace('/')
      { browser := locationReplace "/" (clearStores b2),
        state := { user := none, loading := false }, threw := false }
  | .ok =>
      { browser := locationReplace "/" b2,
        state := { user := none, loading := false }, threw := false }
  | .err _ =>
      -- the returned error is logged, not thrown: cleanup continues
      { browser := locationReplace "/" b2,
        state := { user := none, loading := false }, threw := false }

/-- `useAuth` (AuthContext.tsx lines 243-249): throw when the context
value is `undefined`, otherwise return it. -/
def useAuth {α : Type} (ctx : Option α) : Except String α :=
  match ctx with
  | none => .error "useAuth must be used within an AuthProvider"
  | some c => .ok c

/-- Events observable by the provider's state while it is mounted: the
initial fetch resolving, a change notification arriving, or one of the
facade operations (`signUp`/`signIn`/`signOut`) starting
(`setLoading(true)`) and finishing (`finally setLoading(false)`). -/
inductive TraceEvent
  | initResolved (fetch : FetchOutcome) (gu : GetUserOutcome)
  | notify (event : String) (session : Option Session) (upsert : UpsertOutcome)
  | opStart
  | opFinish
deriving DecidableEq, Repr

/-- The effect of one trace event on the provider state. -/
def stepEvent (s : AuthState) : TraceEvent → AuthState
  | .initResolved f g =>
      let r := initializeAuth f g
      { user := r.1.user, loading := r.1.loading }
  | .notify ev sess up => (handleAuthChange ev sess up s).state
  | .opStart => { s with loading := true }
  | .opFinish => { s with loading := false }

/-- Run a trace of events from a given state. -/
def runTrace (s : AuthState) (t : List TraceEvent) : AuthState :=
  t.foldl stepEvent s

/-- Does the event resolve the initial loading phase (initial fetch
resolution or a change notification)? -/
def isResolutionEvent : TraceEvent → Bool
  | .initResolved _ _ => true
  | .notify _ _ _ => true
  | _ => false

/-- The lifecycle of the provider's `useEffect` (AuthContext.tsx lines
11-90), whose dependency list is `[loading]`: React runs the effect body
(which registers one subscription to the change-notification stream)
after mount, and, on any render where `loading` differs from the value
captured at the last run, runs the cleanup (`subscription.unsubscribe()`)
and the body again.  The counters record how many subscriptions were ever
registered and unsubscribed within one provider mount. -/
structure EffectState where
  registered : Nat
  unsubscribed : Nat
  active : Bool
  lastDep : Bool
deriving DecidableEq, Repr

/-- Mount: the effect body runs once, registering the subscription. -/
def effectOnMount (loading : Bool) : EffectState :=
  { registered := 1, unsubscribed := 0, active := true, lastDep := loading }

/-- A re-render with the current `loading` value: when the `[loading]`
dependency changed, React unsubscribes and re-registers. -/
def effectOnRender (loading : Bool) (es : EffectState) : EffectState :=
  if loading != es.lastDep then
    { registered := es.registered + 1, unsubscribed := es.unsubscribed + 1,
      active := true, lastDep := loading }
  else es

/-- Unmount: the cleanup unsubscribes the live subscription. -/
def effectOnUnmount (es : EffectState) : EffectState :=
  { es with unsubscribed := es.unsubscribed + 1, active := false }

/-! ### Helper lemmas -/

/-- A concrete session used by witnesses. -/
def sessA : Session := ⟨⟨"user-a", some "a@example.com", none⟩⟩

lemma cond_false_self (b : Bool) : (if b then false else b) = false := by
  cases b <;> rfl

lemma handle_loading (ev : String) (sess : Option Session)
    (up : UpsertOutcome) (s : AuthState) :
    (handleAuthChange ev sess up s).state.loading = false := by
  unfold handleAuthChange
  split
  · simp [cond_false_self]
  · cases sess with
    | none => simp_all
    | some sess => cases up <;> simp [cond_false_self]

lemma handle_user_isSome (ev : String) (sess : Option Session)
    (up : UpsertOutcome) (s : AuthState) :
    ((handleAuthChange ev sess up s).state.user).isSome
      = (!(ev == "SIGNED_OUT") && sess.isSome) := by
  unfold handleAuthChange
  cases h : (ev == "SIGNED_OUT") with
  | true => simp [h]
  | false =>
      cases sess with
      | none => simp [h]
      | some sess => cases up <;> simp [h]

lemma initializeAuth_loading (f : FetchOutcome) (g : GetUserOutcome) :
    (initializeAuth f g).1.loading = false := by
  cases f with
  | ok sess => cases sess <;> cases g <;> rfl
  | err m => rfl
  | thrown m => rfl

lemma step_keeps_loading_false (s : AuthState) (e : TraceEvent)
    (he : e ≠ TraceEvent.opStart) (_hs : s.loading = false) :
    (stepEvent s e).loading = false := by
  cases e with
  | initResolved f g => exact initializeAuth_loading f g
  | notify ev sess up => exact handle_loading ev sess up s
  | opStart => exact absurd rfl he
  | opFinish => rfl

lemma runTrace_keeps_loading_false (t : List TraceEvent) (s : AuthState)
    (ht : ∀ x ∈ t, x ≠ TraceEvent.opStart) (hs : s.loading = false) :
    (runTrace s t).loading = false := by
  induction t generalizing s with
  | nil => exact hs
  | cons x xs ih =>
      exact ih (stepEvent s x) (fun y hy => ht y (List.mem_cons_of_mem x hy))
        (step_keeps_loading_false s x (ht x (List.mem_cons_self x xs)) hs)

lemma resolution_clears_loading (s : AuthState) (e : TraceEvent)
    (he : isResolutionEvent e = true) : (stepEvent s e).loading = false := by
  cases e with
  | initResolved f g => exact initializeAuth_loading f g
  | notify ev sess up => exact handle_loading ev sess up s
  | opStart => simp [isResolutionEvent] at he
  | opFinish => rfl

/-! ### Claim theorems -/

/-- C1 (counterexample): the claim quantifies over every notification
sequence, but a notification whose event is `SIGNED_OUT` while its
session is non-null leaves `User` absent, because the handler tests
`event === 'SIGNED_OUT' || !session?.user`: the claimed iff fails on the
one-element sequence `[(SIGNED_OUT, session A)]`. -/
theorem C1_counterexample :
    ¬ (((runNotifications initialState
          [⟨"SIGNED_OUT", some sessA, UpsertOutcome.ok⟩]).user ≠ none)
        ↔ ((some sessA : Option Session) ≠ none)) := by
  decide

/-- C1 (amended): for every notification sequence whose last notification
satisfies "event `SIGNED_OUT` implies null session" (true of every stream
the remote client emits), the local `User` is non-absent iff that most
recent notification carried a non-null session — the last write wins,
regardless of each notification's upsert outcome. -/
theorem C1_last_write_wins (s : AuthState) (ns : List Notification)
    (n : Notification) (h : n.event = "SIGNED_OUT" → n.session = none) :
    ((runNotifications s (ns ++ [n])).user).isSome = n.session.isSome := by
  have hfold : runNotifications s (ns ++ [n])
      = (handleAuthChange n.event n.session n.upsert (runNotifications s ns)).state := by
    simp [runNotifications, List.foldl_append]
  rw [hfold, handle_user_isSome]
  by_cases hev : n.event = "SIGNED_OUT"
  · simp [hev, h hev]
  · simp [hev]

/-- C1 witness: the sequence (session A with failing upsert, then null
session on `SIGNED_OUT`) leaves `User` absent. -/
theorem C1_last_write_wins_witness :
    ((runNotifications initialState
        ([⟨"SIGNED_IN", some sessA, UpsertOutcome.fail⟩]
          ++ [⟨"SIGNED_OUT", none, UpsertOutcome.ok⟩])).user).isSome
      = (none : Option Session).isSome :=
  C1_last_write_wins initialState [⟨"SIGNED_IN", some sessA, UpsertOutcome.fail⟩]
    ⟨"SIGNED_OUT", none, UpsertOutcome.ok⟩ (fun _ => rfl)

/-- C2: whatever the remote sign-out call does (resolves, returns an
error, or rejects), `signOut` leaves both persisted stores empty, the
cookie set empty, `User` absent, and a history-replacing redirect to
`/`. -/
theorem C2_signOut_cleanup (remote : SignOutRemote) (s : AuthState)
    (b : BrowserState) :
    (signOut remote s b).browser.localStorage = [] ∧
    (signOut remote s b).browser.sessionStorage = [] ∧
    (signOut remote s b).browser.cookies = [] ∧
    (signOut remote s b).browser.redirect = some "/" ∧
    (signOut remote s b).browser.historyReplaced = true ∧
    (signOut remote s b).state.user = none := by
  cases remote <;>
    simp [signOut, clearStores, expireAllCookies, locationReplace]

/-- C3 (counterexample): an empty remote error message matches none of
the classification substrings of either operation, yet `signIn` and
`signUp` both rethrow their fallback message, not the original (empty)
text — so "unmatched remote messages are re-thrown carrying the original
text" fails at the empty message. -/
theorem C3_counterexample :
    strIncludes "" "Invalid login credentials" = false ∧
    strIncludes "" "Email not confirmed" = false ∧
    strIncludes "" "Too many requests" = false ∧
    (signIn (α := Unit) (RemoteOutcome.err "") initialState).result
      ≠ OpResult.thrown "" ∧
    (signIn (α := Unit) (RemoteOutcome.err "") initialState).result
      = OpResult.thrown "Sign in failed. Please try again." ∧
    strIncludes "" "already registered" = false ∧
    strIncludes "" "Invalid email" = false ∧
    strIncludes "" "Password" = false ∧
    (signUp (α := Unit) (RemoteOutcome.err "") initialState).result
      ≠ OpResult.thrown "" ∧
    (signUp (α := Unit) (RemoteOutcome.err "") initialState).result
      = OpResult.thrown "Account creation failed. Please try again." := by
  refine ⟨rfl, rfl, rfl, ?_, rfl, rfl, rfl, rfl, ?_, rfl⟩
  · decide
  · decide

/-- C3 (amended): a remote error message containing
`Invalid login credentials` makes `signIn` reject with exactly the
classified invalid-credentials message, and one containing
`already registered` makes `signUp` reject with exactly the
already-registered message — in both cases never the raw remote message;
for either operation, a non-empty message matching none of that
operation's classification substrings is re-thrown carrying the original
text (the empty message instead yields a generic fallback). -/
theorem C3_classification (α : Type) (m1 m2 m3 m4 : String) (s : AuthState)
    (h1 : strIncludes m1 "Invalid login credentials" = true)
    (h2 : strIncludes m2 "already registered" = true)
    (h3 : strIncludes m3 "Invalid login credentials" = false)
    (h4 : strIncludes m3 "Email not confirmed" = false)
    (h5 : strIncludes m3 "Too many requests" = false)
    (h6 : m3 ≠ "")
    (h7 : strIncludes m4 "already registered" = false)
    (h8 : strIncludes m4 "Invalid email" = false)
    (h9 : strIncludes m4 "Password" = false)
    (h10 : m4 ≠ "") :
    (signIn (α := α) (RemoteOutcome.err m1) s).result
        = OpResult.thrown invalidCredentialsMessage ∧
    invalidCredentialsMessage ≠ m1 ∧
    (signUp (α := α) (RemoteOutcome.err m2) s).result
        = OpResult.thrown alreadyRegisteredMessage ∧
    alreadyRegisteredMessage ≠ m2 ∧
    (signIn (α := α) (RemoteOutcome.err m3) s).result
        = OpResult.thrown m3 ∧
    (signUp (α := α) (RemoteOutcome.err m4) s).result
        = OpResult.thrown m4 := by
  refine ⟨?_, ?_, ?_, ?_, ?_, ?_⟩
  · simp [signIn, signInMessage, h1]
  · intro heq
    rw [← heq] at h1
    exact absurd h1 (by decide)
  · simp [signUp, signUpMessage, h2]
  · intro heq
    rw [← heq] at h2
    exact absurd h2 (by decide)
  · simp [signIn, signInMessage, h3, h4, h5, h6]
  · simp [signUp, signUpMessage, h7, h8, h9, h10]

/-- C3 witness at concrete remote messages. -/
theorem C3_classification_witness :
    (signIn (α := Unit) (RemoteOutcome.err "Invalid login credentials")
        initialState).result = OpResult.thrown invalidCredentialsMessage ∧
    invalidCredentialsMessage ≠ "Invalid login credentials" ∧
    (signUp (α := Unit) (RemoteOutcome.err "User already registered")
        initialState).result = OpResult.thrown alreadyRegisteredMessage ∧
    alreadyRegisteredMessage ≠ "User already registered" ∧
    (signIn (α := Unit) (RemoteOutcome.err "Server unavailable")
        initialState).result = OpResult.thrown "Server unavailable" ∧
    (signUp (α := Unit) (RemoteOutcome.err "Server unavailable")
        initialState).result = OpResult.thrown "Server unavailable" :=
  C3_classification Unit "Invalid login credentials" "User already registered"
    "Server unavailable" "Server unavailable" initialState (by decide)
    (by decide) (by decide) (by decide) (by decide) (by decide) (by decide)
    (by decide) (by decide) (by decide)

/-- C4 (counterexample): after the initial fetch resolves, loading is
false; but invoking any facade operation (`signUp`/`signIn`/`signOut`
each begin with `setLoading(true)`) sets it back to true while the
provider is still mounted — so "never set back to true afterwards by any
operation" fails. -/
theorem C4_counterexample :
    (runTrace initialState
        [TraceEvent.initResolved (FetchOutcome.ok none) GetUserOutcome.ok]).loading
      = false ∧
    (runTrace initialState
        [TraceEvent.initResolved (FetchOutcome.ok none) GetUserOutcome.ok,
         TraceEvent.opStart]).loading = true := by
  decide

/-- C4 (amended): loading becomes false no later than the first of
{initial session-fetch resolution, first change notification}, and — in
the absence of facade-operation invocations, each of which sets loading
back to true for its duration — it stays false for the rest of the
mount. -/
theorem C4_loading_monotone (e : TraceEvent) (t : List TraceEvent)
    (he : isResolutionEvent e = true)
    (ht : ∀ x ∈ t, x ≠ TraceEvent.opStart) :
    (runTrace initialState (e :: t)).loading = false := by
  have h1 : (stepEvent initialState e).loading = false :=
    resolution_clears_loading initialState e he
  exact runTrace_keeps_loading_false t (stepEvent initialState e) ht h1

/-- C4 witness: a concrete operation-free trace. -/
theorem C4_loading_monotone_witness :
    isResolutionEvent
        (TraceEvent.initResolved (FetchOutcome.ok none) GetUserOutcome.ok)
      = true ∧
    (runTrace initialState
        (TraceEvent.initResolved (FetchOutcome.ok none) GetUserOutcome.ok ::
          [TraceEvent.notify "SIGNED_IN" (some sessA) UpsertOutcome.ok,
           TraceEvent.opFinish])).loading = false :=
  ⟨by decide,
    C4_loading_monotone
      (TraceEvent.initResolved (FetchOutcome.ok none) GetUserOutcome.ok)
      [TraceEvent.notify "SIGNED_IN" (some sessA) UpsertOutcome.ok,
       TraceEvent.opFinish]
      (by decide) (by decide)⟩

/-- C5: for a notification with a non-null session on which the handler
performs the upsert (any event other than `SIGNED_OUT`), a failing upsert
makes exactly one attempt, lets no exception escape the handler, leaves
`User` exactly as derived from the notification's session, and yields the
same state as a succeeding upsert would. -/
theorem C5_upsert_failure_harmless (ev : String) (sess : Session)
    (s : AuthState) (h : (ev == "SIGNED_OUT") = false) :
    (handleAuthChange ev (some sess) UpsertOutcome.fail s).threw = false ∧
    (handleAuthChange ev (some sess) UpsertOutcome.fail s).upsertAttempts = 1 ∧
    (handleAuthChange ev (some sess) UpsertOutcome.fail s).state.user
        = some (deriveUser sess.user) ∧
    (handleAuthChange ev (some sess) UpsertOutcome.fail s).state
        = (handleAuthChange ev (some sess) UpsertOutcome.ok s).state := by
  simp [handleAuthChange, h]

/-- C5 witness at a concrete sign-in notification. -/
theorem C5_upsert_failure_harmless_witness :
    (handleAuthChange "SIGNED_IN" (some sessA) UpsertOutcome.fail
        initialState).threw = false ∧
    (handleAuthChange "SIGNED_IN" (some sessA) UpsertOutcome.fail
        initialState).upsertAttempts = 1 ∧
    (handleAuthChange "SIGNED_IN" (some sessA) UpsertOutcome.fail
        initialState).state.user = some (deriveUser sessA.user) ∧
    (handleAuthChange "SIGNED_IN" (some sessA) UpsertOutcome.fail
        initialState).state
      = (handleAuthChange "SIGNED_IN" (some sessA) UpsertOutcome.ok
          initialState).state :=
  C5_upsert_failure_harmless "SIGNED_IN" sessA initialState (by decide)

/-- C6: on a successful remote call, both `signUp` and `signIn` leave the
local `User` untouched and return the raw remote data; any `User` update
happens only through the change-notification path. -/
theorem C6_success_frames_user (α : Type) (d : α) (s : AuthState) :
    (signUp (RemoteOutcome.ok d) s).state.user = s.user ∧
    (signUp (RemoteOutcome.ok d) s).result = OpResult.ok d ∧
    (signIn (RemoteOutcome.ok d) s).state.user = s.user ∧
    (signIn (RemoteOutcome.ok d) s).result = OpResult.ok d := by
  exact ⟨rfl, rfl, rfl, rfl⟩

/-- C7: `signOut` never rejects towards its caller — in particular when
the remote call fails because no active session exists — and is
idempotent: a second `signOut` from the state the first one left behind
produces the identical observable outcome (cleared stores and cookies,
absent `User`, redirect to `/`). -/
theorem C7_signOut_idempotent (remote remote2 : SignOutRemote)
    (s : AuthState) (b : BrowserState) :
    (signOut remote s b).threw = false ∧
    signOut remote2 (signOut remote s b).state (signOut remote s b).browser
      = signOut remote s b := by
  cases remote <;> cases remote2 <;> exact ⟨rfl, rfl⟩

/-- C8: the provider's `useEffect` has dependency list `[loading]`, so
when the initial fetch resolves and loading flips true→false, React runs
the cleanup and the body again: two subscriptions have then been
registered (and the first unsubscribed) within a single still-mounted
provider, where the claim requires exactly one registration for the whole
lifetime.  Earlier revisions of the file used an empty dependency list. -/
theorem C8_resubscribes_on_loading_change :
    (effectOnRender false (effectOnMount true)).registered = 2 ∧
    (effectOnRender false (effectOnMount true)).unsubscribed = 1 := by
  decide

/-- C9: when the initial session fetch returns an error or throws, the
failure is logged and treated as signed-out: `User` absent, loading
cleared, and no exception escapes to the provider's consumers. -/
theorem C9_init_failure_signed_out (msg : String) (gu : GetUserOutcome) :
    initializeAuth (FetchOutcome.err msg) gu
        = ({ user := none, loading := false }, false) ∧
    initializeAuth (FetchOutcome.thrown msg) gu
        = ({ user := none, loading := false }, false) := by
  cases gu <;> exact ⟨rfl, rfl⟩

/-- C10: `useAuth` throws exactly
"useAuth must be used within an AuthProvider" when the context value is
absent, and returns the context value unchanged when inside a
provider. -/
theorem C10_useAuth_guard (α : Type) (c : α) :
    useAuth (none : Option α)
        = Except.error "useAuth must be used within an AuthProvider" ∧
    useAuth (some c) = Except.ok c :=
  ⟨rfl, rfl⟩

end AuthSpec
